import Mathlib

/-!
Shallow embedding of the vjmfc V4L2 memory-to-memory decoder front-end.

Each definition mirrors one C function of the repository; device and OS
behaviour (ioctl results, mmap success, directory listings) is passed in
explicitly as data, so every definition is executable and every claim can
be evaluated on concrete inputs.
-/

/-! Section: Capability bits (linux/videodev2.h values used by the source) -/

def V4L2_CAP_VIDEO_CAPTURE_MPLANE : Nat := 0x00001000

def V4L2_CAP_VIDEO_OUTPUT_MPLANE : Nat := 0x00002000

def V4L2_CAP_VIDEO_M2M_MPLANE : Nat := 0x00004000

def V4L2_CAP_STREAMING : Nat := 0x04000000

/-! Section: v4l2_mfc.c: capability verification

`v4l2_mfc_querycap` receives the outcome of the VIDIOC_QUERYCAP ioctl as
the pair (return code, capability bitset): the C function returns `ret`
when the ioctl failed, then rejects with -1 unless capture-mplane,
output-mplane and streaming are all present, in this order. -/

def v4l2_mfc_querycap (ret : Int) (caps : Nat) : Int :=
  if ret ≠ 0 then ret
  else if caps &&& V4L2_CAP_VIDEO_CAPTURE_MPLANE = 0 then -1
  else if caps &&& V4L2_CAP_VIDEO_OUTPUT_MPLANE = 0 then -1
  else if caps &&& V4L2_CAP_STREAMING = 0 then -1
  else 0

/-- Function `query_caps` of `src/unnamed/part_001`: a failed QUERYCAP ioctl is
reported as an empty bitset. -/
def query_caps (ret : Int) (caps : Nat) : Nat :=
  if ret ≠ 0 then 0 else caps

/-- Function `check_m2m_caps` of `src/unnamed/part_001`: M2M-mplane alone, or
capture-mplane and output-mplane together with streaming. -/
def check_m2m_caps (ret : Int) (caps : Nat) : Bool :=
  let c := query_caps ret caps
  (c &&& V4L2_CAP_VIDEO_M2M_MPLANE != 0) ||
    (((c &&& V4L2_CAP_VIDEO_CAPTURE_MPLANE != 0) &&
      (c &&& V4L2_CAP_VIDEO_OUTPUT_MPLANE != 0)) &&
     (c &&& V4L2_CAP_STREAMING != 0))

/-! Section: Buffer plane mapping (`map_buffer` in main.c, `map_planes` in part_003)

A `PlaneEnv` packages what the environment supplies for one plane of one
buffer: the geometry the QUERYBUF ioctl reported (`length`, `bytesused`,
`mem_offset`) and whether the mmap syscall would succeed on that plane.
A `PlaneMapping` records an established mapping: the device offset and
length handed to mmap, the fixed protection/visibility flags
(PROT_READ|PROT_WRITE, MAP_SHARED) and the memset-to-zero the code
performs right after mapping. -/

structure PlaneEnv where
  length : Nat
  bytesused : Nat
  mem_offset : Nat
  mmapOk : Bool
  deriving DecidableEq, Inhabited

structure PlaneMapping where
  offset : Nat
  len : Nat
  shared : Bool
  readWrite : Bool
  zeroFilled : Bool
  deriving DecidableEq

structure MapResult where
  ok : Bool
  mapped : List (Option PlaneMapping)
  numplanes : Nat
  deriving DecidableEq

/-- Function `map_buffer` of main.c: walk the buffer's planes in order; a plane of
length 0 is skipped (its slot stays unmapped), otherwise mmap is attempted
with PROT_READ|PROT_WRITE, MAP_SHARED at the device-reported offset; a
failing mmap aborts immediately (later planes are left untouched), a
successful one is zero-filled and counted in `numplanes`. -/
def map_buffer : List PlaneEnv → MapResult
  | [] => ⟨true, [], 0⟩
  | p :: ps =>
    if p.length = 0 then
      let r := map_buffer ps
      ⟨r.ok, none :: r.mapped, r.numplanes⟩
    else if p.mmapOk then
      let r := map_buffer ps
      ⟨r.ok, some ⟨p.mem_offset, p.length, true, true, true⟩ :: r.mapped, r.numplanes + 1⟩
    else
      ⟨false, none :: ps.map (fun _ => none), 0⟩

/-- Function `map_planes` of part_003: same per-plane walk as `map_buffer` but
without a `numplanes` counter. -/
def map_planes : List PlaneEnv → Bool × List (Option PlaneMapping)
  | [] => (true, [])
  | p :: ps =>
    if p.length = 0 then
      let r := map_planes ps
      (r.1, none :: r.2)
    else if p.mmapOk then
      let r := map_planes ps
      (r.1, some ⟨p.mem_offset, p.length, true, true, true⟩ :: r.2)
    else
      (false, none :: ps.map (fun _ => none))

/-- Index of the first plane on which an attempted mmap would fail
(non-zero length and failing mmap). -/
def firstFail : List PlaneEnv → Option Nat
  | [] => none
  | p :: ps =>
    if p.length ≠ 0 ∧ p.mmapOk = false then some 0
    else (firstFail ps).map (· + 1)

/-! Section: Ioctl transport wrappers with output parameters (v4l2_mfc.c)

`v4l2_mfc_reqbufs` copies the caller's count into the request structure,
issues VIDIOC_REQBUFS and copies the kernel's count field back into the
caller's variable before looking at the return code. The ioctl itself is
modelled as a function from the requested count to (return code, count
field after the call). -/

def v4l2_mfc_reqbufs (ioctl : Nat → Int × Nat) (buf_cnt : Nat) : Int × Nat :=
  let res := ioctl buf_cnt
  (res.1, res.2)

/-- Function `v4l2_mfc_g_ctrl`: issues VIDIOC_G_CTRL and stores the returned
control value into the caller's variable unconditionally; the caller's
previous value does not reach the ioctl at all. -/
def v4l2_mfc_g_ctrl (ioctl : Int → Int × Int) (id : Int) (value : Int) : Int × Int :=
  let res := ioctl id
  (res.1, res.2)

/-! Section: Enqueue / dequeue / query-buffer wrappers (v4l2_mfc.c)

The buffer `length` field (number of planes handed to the kernel) is
selected from the queue direction alone: 1 for OUTPUT-mplane, 2 for
CAPTURE-mplane (-1 resp. 0 otherwise, matching each function's
initialisation of its local `length`). -/

inductive BufType where
  | outputMplane
  | captureMplane
  | other
  deriving DecidableEq

structure V4l2BufPayload where
  typ : BufType
  memory : Nat
  index : Nat
  length : Int
  bytesused0 : Nat
  deriving DecidableEq

/-- The `length` local of `v4l2_mfc_qbuf` (initialised to 0, then set by
the if/else-if chain on the queue direction). -/
def qbuf_len (typ : BufType) : Int :=
  if typ = BufType.outputMplane then 1
  else if typ = BufType.captureMplane then 2
  else 0

/-- The `length` local of `v4l2_mfc_querybuf` (initialised to -1, then
set by the if/else-if chain on the queue direction). -/
def querybuf_len (typ : BufType) : Int :=
  if typ = BufType.outputMplane then 1
  else if typ = BufType.captureMplane then 2
  else -1

/-- The `length` local of `v4l2_mfc_dqbuf` (initialised to 0, then set by
the if/else-if chain on the queue direction). -/
def dqbuf_len (typ : BufType) : Int :=
  if typ = BufType.outputMplane then 1
  else if typ = BufType.captureMplane then 2
  else 0

/-- Function `v4l2_mfc_qbuf` of v4l2_mfc.c: fills the v4l2_buffer fields, stores
`frame_length` into the first plane's bytesused and issues VIDIOC_QBUF.
Returns the ioctl result together with the list of issued ioctl payloads
(always exactly one: there is no state guard before the call). -/
def v4l2_mfc_qbuf (ioctl : V4l2BufPayload → Int) (typ : BufType)
    (memory index frame_length : Nat) : Int × List V4l2BufPayload :=
  let p : V4l2BufPayload := ⟨typ, memory, index, qbuf_len typ, frame_length⟩
  (ioctl p, [p])

/-- Function `v4l2_mfc_querybuf` of v4l2_mfc.c: builds the query payload and
issues VIDIOC_QUERYBUF. -/
def v4l2_mfc_querybuf (ioctl : V4l2BufPayload → Int) (typ : BufType)
    (memory index : Nat) : Int × V4l2BufPayload :=
  let p : V4l2BufPayload := ⟨typ, memory, index, querybuf_len typ, 0⟩
  (ioctl p, p)

/-- Function `v4l2_mfc_dqbuf` of v4l2_mfc.c: a two-element plane array on the
stack, `length` selected from the queue direction only, VIDIOC_DQBUF
issued with it. -/
def v4l2_mfc_dqbuf (ioctl : V4l2BufPayload → Int) (typ : BufType)
    (memory : Nat) : Int × V4l2BufPayload :=
  let p : V4l2BufPayload := ⟨typ, memory, 0, dqbuf_len typ, 0⟩
  (ioctl p, p)

/-- Negotiated multi-planar pixel format geometry as V4L2_G_FMT reports
it; only the plane count matters to the claims. -/
structure PixFormatMplane where
  width : Nat
  height : Nat
  num_planes : Nat
  deriving DecidableEq

/-- The capture geometry of a decoder output that reports three planes
(the spec notes observed decoder output can report more than two). -/
def capture_fmt_three_planes : PixFormatMplane := ⟨1920, 1080, 3⟩

/-- Lifecycle-relevant fields of `struct mfc_buffer` in main.c: the
`queue` flag is declared there but never read or written by any code
path, so it never reaches `v4l2_mfc_qbuf`. -/
structure MfcBufferState where
  index : Nat
  queue : Bool
  deriving DecidableEq

def already_queued_buffer : MfcBufferState := ⟨0, true⟩

/-! Section: Session initialization (`mfc_ctxt_init` and `queue_buffers` in main.c)

The device side of the ioctls issued during initialization is an
`InitDev`; the observable ioctl sequence is a list of `Ev` events.
`queue_buffers` in main.c reuses the outer loop variable `i` for its
inner per-plane loop, so after the inner loop `i` equals the mapped
buffer's `numplanes`; the enqueue is issued at that index and the next
outer iteration starts at `numplanes + 1`. The embedding keeps this
behaviour; the loop is driven by fuel because with `numplanes = 0` the C
loop never advances. -/

inductive Ev where
  | sfmt
  | reqbufs
  | querybuf (index : Nat)
  | mapped (index : Nat)
  | mapFail (index : Nat)
  | qbuf (index : Nat)
  | streamon
  deriving DecidableEq

structure InitDev where
  findRet : Int
  sfmtRet : Int
  reqbufsIoctl : Nat → Int × Nat
  querybufRet : Nat → Int
  planeEnv : Nat → List PlaneEnv
  qbufRet : Nat → Int
  streamonRet : Int

structure InitState where
  handler : Int
  oc : Nat
  outLen : Nat
  deriving DecidableEq

/-- The `queue_buffers` loop of main.c. Returns `none` when the fuel runs
out (the C loop would still be running), otherwise the boolean result,
together with the ioctl trace. -/
def queue_buffers_loop (d : InitDev) (oc : Nat) : Nat → Nat → Option Bool × List Ev
  | 0, _ => (none, [])
  | fuel + 1, i =>
    if i < oc then
      if d.querybufRet i ≠ 0 then (some false, [Ev.querybuf i])
      else
        let m := map_buffer (d.planeEnv i)
        if m.ok = false then (some false, [Ev.querybuf i, Ev.mapFail i])
        else
          let np := m.numplanes
          if d.qbufRet np ≠ 0 then
            (some false, [Ev.querybuf i, Ev.mapped i, Ev.qbuf np])
          else
            let rest := queue_buffers_loop d oc fuel (np + 1)
            (rest.1, Ev.querybuf i :: Ev.mapped i :: Ev.qbuf np :: rest.2)
    else (some true, [])

/-- Function `mfc_ctxt_init` of main.c: locate the device, set the OUTPUT format,
request 2 buffers, store the granted count as `oc` and allocate that many
`mfc_buffer` records, run `queue_buffers`, then stream on OUTPUT. -/
def mfc_ctxt_init (d : InitDev) (fuel : Nat) : Option Bool × List Ev × InitState :=
  let handler := d.findRet
  if handler = -1 then (some false, [], ⟨-1, 0, 0⟩)
  else if d.sfmtRet ≠ 0 then (some false, [Ev.sfmt], ⟨handler, 0, 0⟩)
  else
    let rb := v4l2_mfc_reqbufs d.reqbufsIoctl 2
    if rb.1 ≠ 0 then (some false, [Ev.sfmt, Ev.reqbufs], ⟨handler, 0, 0⟩)
    else
      let count := rb.2
      let st : InitState := ⟨handler, count, count⟩
      let qb := queue_buffers_loop d count fuel 0
      match qb.1 with
      | none => (none, Ev.sfmt :: Ev.reqbufs :: qb.2, st)
      | some false => (some false, Ev.sfmt :: Ev.reqbufs :: qb.2, st)
      | some true =>
        if d.streamonRet ≠ 0 then
          (some false, (Ev.sfmt :: Ev.reqbufs :: qb.2) ++ [Ev.streamon], st)
        else
          (some true, (Ev.sfmt :: Ev.reqbufs :: qb.2) ++ [Ev.streamon], st)

/-! Section: Teardown (`close_device` in main.c and in part_003)

Each variant maps the handler field to its new value and reports the
list of file descriptors on which the close syscall was invoked. -/

/-- Function `close_device` of main.c: closes unconditionally, then stores the
sentinel -1. -/
def close_device_main (handler : Int) : Int × List Int :=
  (-1, [handler])

/-- Function `close_device` of part_003: closes and stores the sentinel only when
the handler is not already the sentinel. -/
def close_device_guarded (handler : Int) : Int × List Int :=
  if handler ≠ -1 then (-1, [handler]) else (handler, [])

/-- Run a teardown variant twice, accumulating the issued close calls. -/
def close_twice (f : Int → Int × List Int) (handler : Int) : Int × List Int :=
  let r1 := f handler
  let r2 := f r1.1
  (r2.1, r1.2 ++ r2.2)

/-! Section: Device discovery (`v4l2_find_device` and `open_and_query` in dev.c)

A sysfs directory entry carries: its name, the result of reading its
`name` file (`driver`), the resolved `/dev` path (`device`), the result
of opening that path (`openFd`, none when open fails) and the
VIDIOC_QUERYCAP outcome on the opened descriptor. `substr needle hay`
embeds `strstr (hay, needle) != NULL`. -/

structure DirEntry where
  name : String
  driver : Option String
  device : Option String
  openFd : Option Int
  qcRet : Int
  qcCaps : Nat

def chars_contain (needle : List Char) : List Char → Bool
  | [] => needle.isEmpty
  | c :: cs => needle.isPrefixOf (c :: cs) || chars_contain needle cs

def substr (needle hay : String) : Bool :=
  chars_contain needle.toList hay.toList

/-- Embedding of `strncmp (name, "video", 5) == 0`: the first five characters of the
entry name are exactly "video". -/
def starts_with (p s : String) : Bool :=
  p.toList.isPrefixOf s.toList

/-- Function `open_and_query` of dev.c: on open failure the handler is untouched;
when the capability check passes the descriptor becomes the handler,
otherwise it is closed. Returns (new handler, closed descriptors). -/
def open_and_query (e : DirEntry) (handler : Int) : Int × List Int :=
  match e.openFd with
  | none => (handler, [])
  | some fd =>
    if v4l2_mfc_querycap e.qcRet e.qcCaps = 0 then (fd, [])
    else (handler, [fd])

/-- The readdir loop of `v4l2_find_device`: entries not starting with
"video" or without a readable driver string are skipped; a device path,
a still-unset handler and a driver containing the requested substring
are required before `open_and_query` is attempted. -/
def find_device_loop (dn : String) : List DirEntry → Int → Int × List Int
  | [], handler => (handler, [])
  | e :: es, handler =>
    if (starts_with "video" e.name) = false then find_device_loop dn es handler
    else
      match e.driver with
      | none => find_device_loop dn es handler
      | some drv =>
        if e.device.isSome ∧ handler = -1 ∧ substr dn drv then
          let r := open_and_query e handler
          let rest := find_device_loop dn es r.1
          (rest.1, r.2 ++ rest.2)
        else find_device_loop dn es handler

/-- Function `v4l2_find_device` of dev.c: -1 when the sysfs directory cannot be
opened, otherwise the readdir loop starting from handler -1. -/
def v4l2_find_device (dn : String) (dirOpen : Bool) (entries : List DirEntry) :
    Int × List Int :=
  if dirOpen then find_device_loop dn entries (-1) else (-1, [])

/-- Whether a directory entry is one the scan acts on: name starts with
"video", driver readable and containing the requested substring, device
path resolved. -/
def entry_matches (dn : String) (e : DirEntry) : Bool :=
  starts_with "video" e.name &&
    (match e.driver with
     | none => false
     | some drv => substr dn drv) &&
    e.device.isSome

/-- Reference scan, written from the spec's words ("the first sysfs entry
in directory order whose name starts with video, whose driver string
contains the requested substring, and whose capability check succeeds";
"closes the descriptor and continues scanning when a matching device
fails verification"; "-1 when no entry qualifies"). Returns the resulting
handler and the descriptors closed along the way. -/
def spec_scan (dn : String) : List DirEntry → Int × List Int
  | [] => (-1, [])
  | e :: es =>
    if entry_matches dn e then
      match e.openFd with
      | none => spec_scan dn es
      | some fd =>
        if v4l2_mfc_querycap e.qcRet e.qcCaps = 0 then (fd, [])
        else
          let rest := spec_scan dn es
          (rest.1, fd :: rest.2)
    else spec_scan dn es

/-! Section: Concrete environments used to evaluate the claims -/

/-- A sysfs entry for a device reporting only capture-mplane and
streaming (spec scenario 3). -/
def entry_scenario3 : DirEntry :=
  ⟨"video6", some "s5p-mfc-dec", some "/dev/video6", some 7, 0,
    V4L2_CAP_VIDEO_CAPTURE_MPLANE ||| V4L2_CAP_STREAMING⟩

/-- An initialization environment in which device discovery has failed
(handler -1); every later ioctl answer is irrelevant. -/
def dev_no_device : InitDev :=
  ⟨-1, 0, fun n => (0, n), fun _ => 0, fun _ => [], fun _ => 0, 0⟩

/-- An initialization environment granting 3 OUTPUT buffers on the
request for 2; each buffer reports one plane of 512000 bytes and one
absent (zero-length) plane, and every ioctl and mmap succeeds. -/
def dev_grants_three : InitDev :=
  ⟨4, 0, fun _ => (0, 3), fun _ => 0,
    fun _ => [⟨512000, 0, 0, true⟩, ⟨0, 0, 0, true⟩], fun _ => 0, 0⟩

/-- The C4 failing environment: discovery succeeded (fd 5), REQBUFS
grants the requested 2 OUTPUT buffers, every buffer reports plane
geometry (512000, 0) — one real plane, one absent — and every ioctl and
mmap succeeds. -/
def dev_two_buffers : InitDev :=
  ⟨5, 0, fun n => (0, n), fun _ => 0,
    fun _ => [⟨512000, 0, 4096, true⟩, ⟨0, 0, 0, true⟩], fun _ => 0, 0⟩

/-- An initialization environment whose buffers report a real first
plane on which mmap fails. -/
def dev_mmap_fails : InitDev :=
  ⟨5, 0, fun n => (0, n), fun _ => 0,
    fun _ => [⟨512000, 0, 4096, false⟩, ⟨0, 0, 0, true⟩], fun _ => 0, 0⟩

def openFd_nonneg (e : DirEntry) : Bool :=
  match e.openFd with
  | none => true
  | some fd => decide (0 ≤ fd)

def caps_full : Nat :=
  V4L2_CAP_VIDEO_CAPTURE_MPLANE ||| V4L2_CAP_VIDEO_OUTPUT_MPLANE ||| V4L2_CAP_STREAMING

/-- A five-entry sysfs directory: a non-video entry, a driver mismatch, a
matching device failing verification, the first qualifying device (fd 6)
and a later qualifying device that must not be opened. -/
def c10_entries : List DirEntry :=
  [⟨"card0", some "s5p-mfc-dec", some "/dev/video0", some 3, 0, caps_full⟩,
   ⟨"video1", some "exynos-gsc", some "/dev/video1", some 4, 0, caps_full⟩,
   ⟨"video2", some "s5p-mfc-dec", some "/dev/video2", some 5, 0,
     V4L2_CAP_VIDEO_CAPTURE_MPLANE ||| V4L2_CAP_STREAMING⟩,
   ⟨"video3", some "s5p-mfc-dec", some "/dev/video3", some 6, 0, caps_full⟩,
   ⟨"video4", some "s5p-mfc-dec", some "/dev/video4", some 8, 0, caps_full⟩]

/-! Section: Helper lemmas -/

/-- If every directory entry fails capability verification, the readdir
loop leaves the handler unchanged. -/
theorem find_loop_all_fail (dn : String) (entries : List DirEntry) (h : Int)
    (hall : ∀ e ∈ entries, v4l2_mfc_querycap e.qcRet e.qcCaps ≠ 0) :
    (find_device_loop dn entries h).1 = h := by
  induction entries generalizing h with
  | nil => rfl
  | cons e es ih =>
    have he := hall e (List.mem_cons_self e es)
    have hes : ∀ x ∈ es, v4l2_mfc_querycap x.qcRet x.qcCaps ≠ 0 :=
      fun x hx => hall x (List.mem_cons_of_mem _ hx)
    simp only [find_device_loop]
    split
    · exact ih h hes
    · cases hdrv : e.driver with
      | none => simp only [hdrv]; exact ih h hes
      | some drv =>
        simp only [hdrv]
        split
        · have hoq : (open_and_query e h).1 = h := by
            unfold open_and_query
            cases hfd : e.openFd with
            | none => rfl
            | some fd => simp [he]
          show (find_device_loop dn es (open_and_query e h).1).1 = h
          rw [hoq]
          exact ih h hes
        · exact ih h hes

/-- When discovery, S_FMT and REQBUFS succeed, the context records the
granted count as `oc` and allocates that many records. -/
theorem mfc_ctxt_init_state (d : InitDev) (fuel : Nat)
    (hfind : d.findRet ≠ -1) (hsfmt : d.sfmtRet = 0)
    (hreq : (d.reqbufsIoctl 2).1 = 0) :
    (mfc_ctxt_init d fuel).2.2 =
      ⟨d.findRet, (d.reqbufsIoctl 2).2, (d.reqbufsIoctl 2).2⟩ := by
  unfold mfc_ctxt_init
  rw [if_neg hfind, if_neg (by simp [hsfmt])]
  have h1 : (v4l2_mfc_reqbufs d.reqbufsIoctl 2).1 = 0 := hreq
  rw [if_neg (by simp [h1])]
  rcases hq : (queue_buffers_loop d (d.reqbufsIoctl 2).2 fuel 0).1 with _ | b
  · simp [hq, v4l2_mfc_reqbufs]
  · cases b
    · simp [hq, v4l2_mfc_reqbufs]
    · simp only [v4l2_mfc_reqbufs, hq]
      split <;> rfl

/-! Section: Claim theorems -/

theorem check_m2m_caps_iff (caps : Nat) :
    check_m2m_caps 0 caps = true ↔
      (caps &&& V4L2_CAP_VIDEO_M2M_MPLANE ≠ 0 ∨
        (caps &&& V4L2_CAP_VIDEO_CAPTURE_MPLANE ≠ 0 ∧
          caps &&& V4L2_CAP_VIDEO_OUTPUT_MPLANE ≠ 0 ∧
          caps &&& V4L2_CAP_STREAMING ≠ 0)) := by
  simp [check_m2m_caps, query_caps, Bool.or_eq_true, Bool.and_eq_true, bne_iff_ne,
    and_assoc]

theorem querycap_ok_iff (caps : Nat) :
    v4l2_mfc_querycap 0 caps = 0 ↔
      (caps &&& V4L2_CAP_VIDEO_CAPTURE_MPLANE ≠ 0 ∧
        caps &&& V4L2_CAP_VIDEO_OUTPUT_MPLANE ≠ 0 ∧
        caps &&& V4L2_CAP_STREAMING ≠ 0) := by
  unfold v4l2_mfc_querycap
  split
  · simp_all
  · split
    · simp_all
    · split
      · simp_all
      · split <;> simp_all

/-- C1 counterexample: a capability bitset carrying only combined M2M
support is accepted by `check_m2m_caps` but rejected by the
`v4l2_mfc_querycap` verification used on the decode path, so the claimed
biconditional ("succeeds iff ... or combined M2M support") does not hold
for the latter. -/
theorem c1_counterexample :
    check_m2m_caps 0 V4L2_CAP_VIDEO_M2M_MPLANE = true ∧
    v4l2_mfc_querycap 0 V4L2_CAP_VIDEO_M2M_MPLANE ≠ 0 := by
  decide

/-- C1 (amended): `check_m2m_caps` succeeds exactly on bitsets with
combined M2M support or with capture-mplane, output-mplane and streaming
together; `v4l2_mfc_querycap` succeeds exactly on the latter conjunction
(a bitset with only M2M support is rejected by it); and when every
discovery candidate fails capability verification the device finder
returns -1 and session initialization issues no format or buffer ioctl
at all. -/
theorem c1_capability_verification (caps : Nat) (d : InitDev) (fuel : Nat)
    (dn : String) (entries : List DirEntry)
    (hfind : d.findRet = -1)
    (hall : ∀ e ∈ entries, v4l2_mfc_querycap e.qcRet e.qcCaps ≠ 0) :
    (check_m2m_caps 0 caps = true ↔
      (caps &&& V4L2_CAP_VIDEO_M2M_MPLANE ≠ 0 ∨
        (caps &&& V4L2_CAP_VIDEO_CAPTURE_MPLANE ≠ 0 ∧
          caps &&& V4L2_CAP_VIDEO_OUTPUT_MPLANE ≠ 0 ∧
          caps &&& V4L2_CAP_STREAMING ≠ 0))) ∧
    (v4l2_mfc_querycap 0 caps = 0 ↔
      (caps &&& V4L2_CAP_VIDEO_CAPTURE_MPLANE ≠ 0 ∧
        caps &&& V4L2_CAP_VIDEO_OUTPUT_MPLANE ≠ 0 ∧
        caps &&& V4L2_CAP_STREAMING ≠ 0)) ∧
    (v4l2_find_device dn true entries).1 = -1 ∧
    (mfc_ctxt_init d fuel).1 = some false ∧
    (mfc_ctxt_init d fuel).2.1 = [] := by
  refine ⟨check_m2m_caps_iff caps, querycap_ok_iff caps, ?_, ?_, ?_⟩
  · unfold v4l2_find_device
    rw [if_pos rfl]
    exact find_loop_all_fail dn entries (-1) hall
  · unfold mfc_ctxt_init
    rw [if_pos hfind]
  · unfold mfc_ctxt_init
    rw [if_pos hfind]

/-- C1 witness: spec scenario 3 — a device reporting only capture-mplane
and streaming fails the querycap verification, the scan over a directory
containing only that device yields -1, and initialization then issues no
ioctl. -/
theorem c1_witness :
    v4l2_mfc_querycap 0 (V4L2_CAP_VIDEO_CAPTURE_MPLANE ||| V4L2_CAP_STREAMING) ≠ 0 ∧
    (v4l2_find_device "s5p-mfc-dec" true [entry_scenario3]).1 = -1 ∧
    (mfc_ctxt_init dev_no_device 8).1 = some false ∧
    (mfc_ctxt_init dev_no_device 8).2.1 = [] := by
  have h := c1_capability_verification
    (V4L2_CAP_VIDEO_CAPTURE_MPLANE ||| V4L2_CAP_STREAMING)
    dev_no_device 8 "s5p-mfc-dec" [entry_scenario3] rfl (by decide)
  refine ⟨?_, h.2.2.1, h.2.2.2.1, h.2.2.2.2⟩
  intro hc
  exact absurd (h.2.1.mp hc) (by decide)

/-- C2 counterexample: the buffer is already in Queued state
(`already_queued_buffer.queue = true`), yet enqueuing it issues the
VIDIOC_QBUF ioctl (exactly one payload reaches the device) and returns
the device's success code 0 instead of an error. -/
theorem c2_counterexample :
    already_queued_buffer.queue = true ∧
    (v4l2_mfc_qbuf (fun _ => 0) BufType.outputMplane 1
        already_queued_buffer.index 0).1 = 0 ∧
    ((v4l2_mfc_qbuf (fun _ => 0) BufType.outputMplane 1
        already_queued_buffer.index 0).2).length = 1 := by
  decide

/-- C2 (amended): the enqueue wrapper performs no lifecycle-state check:
for every buffer — independently of its `queue` flag, which is declared
in `struct mfc_buffer` but never consulted by any code path — it issues
the enqueue ioctl exactly once with the assembled payload and returns
the device's verdict, so an already-Queued buffer is re-submitted to the
device rather than rejected locally. -/
theorem c2_qbuf_unconditional (ioctl : V4l2BufPayload → Int) (t : BufType)
    (memory frame_length : Nat) (b : MfcBufferState) :
    (v4l2_mfc_qbuf ioctl t memory b.index frame_length).2 =
      [⟨t, memory, b.index, qbuf_len t, frame_length⟩] ∧
    (v4l2_mfc_qbuf ioctl t memory b.index frame_length).1 =
      ioctl ⟨t, memory, b.index, qbuf_len t, frame_length⟩ :=
  ⟨rfl, rfl⟩

/-- C3: the transport writes the kernel-granted count back into the
caller's variable, and session initialization stores the granted count
(not the requested one) as the pool size `oc` and allocates exactly that
many buffer records. -/
theorem c3_granted_count (ioctl : Nat → Int × Nat) (n : Nat) (d : InitDev)
    (fuel : Nat) (hn : 1 ≤ n)
    (hfind : d.findRet ≠ -1) (hsfmt : d.sfmtRet = 0)
    (hreq : (d.reqbufsIoctl 2).1 = 0) :
    (v4l2_mfc_reqbufs ioctl n).2 = (ioctl n).2 ∧
    (mfc_ctxt_init d fuel).2.2.oc = (d.reqbufsIoctl 2).2 ∧
    (mfc_ctxt_init d fuel).2.2.outLen = (d.reqbufsIoctl 2).2 := by
  have hst := mfc_ctxt_init_state d fuel hfind hsfmt hreq
  exact ⟨rfl, by rw [hst], by rw [hst]⟩

/-- C3 witness: a device granting 3 buffers on the request for 2 stores 3
as the pool size and allocates 3 records. -/
theorem c3_witness :
    (v4l2_mfc_reqbufs (fun _ => ((0 : Int), 3)) 2).2 = ((0 : Int), (3 : Nat)).2 ∧
    (mfc_ctxt_init dev_grants_three 9).2.2.oc = 3 ∧
    (mfc_ctxt_init dev_grants_three 9).2.2.outLen = 3 :=
  c3_granted_count (fun _ => ((0 : Int), 3)) 2 dev_grants_three 9
    (by decide) (by decide) rfl rfl

/-- C8 counterexample: with a negotiated capture geometry reporting three
planes, the dequeue payload still hands the kernel a two-element plane
array, and the query-buffer payloads use the per-direction constants 1
(OUTPUT) and 2 (CAPTURE): the plane count is not derived from the
negotiated geometry. -/
theorem c8_counterexample :
    capture_fmt_three_planes.num_planes = 3 ∧
    (v4l2_mfc_dqbuf (fun _ => 0) BufType.captureMplane 1).2.length = 2 ∧
    (v4l2_mfc_dqbuf (fun _ => 0) BufType.captureMplane 1).2.length ≠
      (capture_fmt_three_planes.num_planes : Int) ∧
    (v4l2_mfc_querybuf (fun _ => 0) BufType.captureMplane 1 0).2.length = 2 ∧
    (v4l2_mfc_querybuf (fun _ => 0) BufType.outputMplane 1 0).2.length = 1 := by
  decide

/-- C8 (amended): the plane count handed to the kernel in buffer-geometry
query, enqueue and dequeue is a fixed constant per queue direction — 1
for OUTPUT-mplane, 2 for CAPTURE-mplane — whatever the negotiated format
reports and whatever the device answers. -/
theorem c8_fixed_plane_count (ioctl : V4l2BufPayload → Int)
    (memory index frame_length : Nat) :
    (v4l2_mfc_querybuf ioctl BufType.outputMplane memory index).2.length = 1 ∧
    (v4l2_mfc_querybuf ioctl BufType.captureMplane memory index).2.length = 2 ∧
    (v4l2_mfc_qbuf ioctl BufType.outputMplane memory index frame_length).2 =
      [⟨BufType.outputMplane, memory, index, 1, frame_length⟩] ∧
    (v4l2_mfc_qbuf ioctl BufType.captureMplane memory index frame_length).2 =
      [⟨BufType.captureMplane, memory, index, 2, frame_length⟩] ∧
    (v4l2_mfc_dqbuf ioctl BufType.outputMplane memory).2.length = 1 ∧
    (v4l2_mfc_dqbuf ioctl BufType.captureMplane memory).2.length = 2 :=
  ⟨rfl, rfl, rfl, rfl, rfl, rfl⟩

/-- C9: neither wrapper with an output parameter is atomic on error — the
caller's count variable receives the kernel's count field and the
caller's control-value variable receives the kernel's value field even
when the underlying ioctl reports failure. -/
theorem c9_output_params_overwritten (rio : Nat → Int × Nat)
    (cio : Int → Int × Int) (n : Nat) (id old : Int)
    (hr : (rio n).1 ≠ 0) (hc : (cio id).1 ≠ 0) :
    (v4l2_mfc_reqbufs rio n).2 = (rio n).2 ∧
    (v4l2_mfc_g_ctrl cio id old).2 = (cio id).2 :=
  ⟨rfl, rfl⟩

/-- C9 witness: a failing REQBUFS ioctl (return -1, count field 0) still
clobbers the caller's requested 2 with 0, and a failing G_CTRL ioctl
(return -1, value field 7) still clobbers the caller's 3 with 7. -/
theorem c9_witness :
    (v4l2_mfc_reqbufs (fun _ => (-1, 0)) 2).2 = 0 ∧
    (v4l2_mfc_g_ctrl (fun _ => (-1, 7)) 5 3).2 = 7 :=
  c9_output_params_overwritten (fun _ => (-1, 0)) (fun _ => (-1, 7)) 2 5 3
    (by decide) (by decide)

/-! Section: Plane-mapping lemmas (towards C5 and C6) -/

theorem getD_const_none (ps : List PlaneEnv) (j : Nat) :
    (ps.map (fun _ => (none : Option PlaneMapping))).getD j none = none := by
  induction ps generalizing j with
  | nil => simp
  | cons p ps ih =>
    cases j with
    | zero => rfl
    | succ j => simpa using ih j

theorem map_planes_eq_map_buffer (ps : List PlaneEnv) :
    map_planes ps = ((map_buffer ps).ok, (map_buffer ps).mapped) := by
  induction ps with
  | nil => rfl
  | cons p ps ih =>
    simp only [map_planes, map_buffer]
    split
    · rw [ih]
    · split
      · rw [ih]
      · rfl

/-- On a successful run, a plane slot holds a mapping exactly when the
device reported a non-zero length for it. -/
theorem map_buffer_mapped_iff (ps : List PlaneEnv)
    (h : (map_buffer ps).ok = true) :
    ∀ j, ((map_buffer ps).mapped.getD j none).isSome = true ↔
      (j < ps.length ∧ (ps.getD j default).length ≠ 0) := by
  induction ps with
  | nil => intro j; simp [map_buffer]
  | cons p ps ih =>
    intro j
    by_cases hp : p.length = 0
    · have hrest : (map_buffer ps).ok = true := by
        simpa [map_buffer, hp] using h
      cases j with
      | zero => simp [map_buffer, hp]
      | succ j =>
        simpa [map_buffer, hp, Nat.succ_lt_succ_iff] using ih hrest j
    · by_cases hq : p.mmapOk
      · have hrest : (map_buffer ps).ok = true := by
          simpa [map_buffer, hp, hq] using h
        cases j with
        | zero => simp [map_buffer, hp, hq]
        | succ j =>
          simpa [map_buffer, hp, hq, Nat.succ_lt_succ_iff] using ih hrest j
      · exfalso
        simp [map_buffer, hp, hq] at h

/-- Every established mapping carries the device-reported offset and
length, the shared read-write flags and the zero fill. -/
theorem map_buffer_mapping_fields (ps : List PlaneEnv) :
    ∀ j m, (map_buffer ps).mapped.getD j none = some m →
      m.offset = (ps.getD j default).mem_offset ∧
      m.len = (ps.getD j default).length ∧
      m.shared = true ∧ m.readWrite = true ∧ m.zeroFilled = true := by
  induction ps with
  | nil => intro j m hm; simp [map_buffer] at hm
  | cons p ps ih =>
    intro j m hm
    by_cases hp : p.length = 0
    · cases j with
      | zero => simp [map_buffer, hp] at hm
      | succ j =>
        have hm' : (map_buffer ps).mapped.getD j none = some m := by
          simpa [map_buffer, hp] using hm
        simpa using ih j m hm'
    · by_cases hq : p.mmapOk
      · cases j with
        | zero =>
          have : some (⟨p.mem_offset, p.length, true, true, true⟩ : PlaneMapping) = some m := by
            simpa [map_buffer, hp, hq] using hm
          obtain rfl : (⟨p.mem_offset, p.length, true, true, true⟩ : PlaneMapping) = m :=
            Option.some.inj this
          simp
        | succ j =>
          have hm' : (map_buffer ps).mapped.getD j none = some m := by
            simpa [map_buffer, hp, hq] using hm
          simpa using ih j m hm'
      · exfalso
        cases j with
        | zero => simp [map_buffer, hp, hq] at hm
        | succ j =>
          have : (ps.map (fun _ => (none : Option PlaneMapping))).getD j none = some m := by
            simpa [map_buffer, hp, hq] using hm
          rw [getD_const_none] at this
          exact Option.noConfusion this

/-- A failing plane aborts the walk: the result is failure and no plane
from the first failing one onwards is mapped. -/
theorem map_buffer_fail (ps : List PlaneEnv) (j : Nat)
    (hj : firstFail ps = some j) :
    (map_buffer ps).ok = false ∧
    ∀ k, j ≤ k → (map_buffer ps).mapped.getD k none = none := by
  induction ps generalizing j with
  | nil => simp [firstFail] at hj
  | cons p ps ih =>
    by_cases hf : p.length ≠ 0 ∧ p.mmapOk = false
    · have hj0 : j = 0 := by
        rw [firstFail, if_pos hf] at hj
        exact (Option.some.inj hj).symm
      subst hj0
      refine ⟨?_, ?_⟩
      · rw [map_buffer, if_neg hf.1]
        rw [hf.2]
        rfl
      · intro k _
        rw [map_buffer, if_neg hf.1, hf.2]
        cases k with
        | zero => rfl
        | succ k =>
          show (ps.map (fun _ => (none : Option PlaneMapping))).getD k none = none
          exact getD_const_none ps k
    · have hj' : ∃ j', firstFail ps = some j' ∧ j = j' + 1 := by
        rw [firstFail, if_neg hf] at hj
        cases hff : firstFail ps with
        | none => rw [hff] at hj; exact Option.noConfusion hj
        | some j' =>
          rw [hff] at hj
          exact ⟨j', rfl, (Option.some.inj hj).symm⟩
      obtain ⟨j', hff, rfl⟩ := hj'
      have hrest := ih j' hff
      by_cases hp : p.length = 0
      · refine ⟨?_, ?_⟩
        · rw [map_buffer, if_pos hp]
          exact hrest.1
        · intro k hk
          rw [map_buffer, if_pos hp]
          cases k with
          | zero => exact absurd hk (by omega)
          | succ k =>
            show (map_buffer ps).mapped.getD k none = none
            exact hrest.2 k (by omega)
      · have hq : p.mmapOk = true := by
          rcases Bool.eq_false_or_eq_true p.mmapOk with hb | hb
          · exact hb
          · exact absurd ⟨hp, hb⟩ hf

        refine ⟨?_, ?_⟩
        · rw [map_buffer, if_neg hp, hq, if_pos rfl]
          exact hrest.1
        · intro k hk
          rw [map_buffer, if_neg hp, hq, if_pos rfl]
          cases k with
          | zero => exact absurd hk (by omega)
          | succ k =>
            show (map_buffer ps).mapped.getD k none = none
            exact hrest.2 k (by omega)

/-- A mapping failure inside the queue_buffers loop makes the loop
report failure. -/
theorem queue_loop_mapfail_false (d : InitDev) (oc : Nat) :
    ∀ fuel i k, Ev.mapFail k ∈ (queue_buffers_loop d oc fuel i).2 →
      (queue_buffers_loop d oc fuel i).1 = some false := by
  intro fuel
  induction fuel with
  | zero =>
    intro i k hk
    simp [queue_buffers_loop] at hk
  | succ fuel ih =>
    intro i k hk
    rw [queue_buffers_loop] at hk ⊢
    by_cases hio : i < oc
    · rw [if_pos hio] at hk ⊢
      by_cases hq : d.querybufRet i ≠ 0
      · rw [if_pos hq] at hk
        simp at hk
      · rw [if_neg hq] at hk ⊢
        by_cases hmap : (map_buffer (d.planeEnv i)).ok = false
        · rw [if_pos hmap]
        · rw [if_neg hmap] at hk ⊢
          by_cases hqb : d.qbufRet (map_buffer (d.planeEnv i)).numplanes ≠ 0
          · rw [if_pos hqb] at hk
            simp at hk
          · rw [if_neg hqb] at hk ⊢
            have hin : Ev.mapFail k ∈
                (queue_buffers_loop d oc fuel ((map_buffer (d.planeEnv i)).numplanes + 1)).2 := by
              simpa using hk
            exact ih _ k hin
    · rw [if_neg hio] at hk
      simp at hk

/-- A mapping failure during initialization makes the whole
initialization fail. -/
theorem mfc_init_mapfail_false (d : InitDev) (fuel : Nat) (k : Nat)
    (hk : Ev.mapFail k ∈ (mfc_ctxt_init d fuel).2.1) :
    (mfc_ctxt_init d fuel).1 = some false := by
  rw [mfc_ctxt_init] at hk ⊢
  by_cases hfind : d.findRet = -1
  · rw [if_pos hfind] at hk
    simp at hk
  · rw [if_neg hfind] at hk ⊢
    by_cases hsf : d.sfmtRet ≠ 0
    · rw [if_pos hsf] at hk
      simp at hk
    · rw [if_neg hsf] at hk ⊢
      by_cases hrb : (v4l2_mfc_reqbufs d.reqbufsIoctl 2).1 ≠ 0
      · rw [if_pos hrb] at hk
        simp at hk
      · rw [if_neg hrb] at hk ⊢
        rcases hq : (queue_buffers_loop d (v4l2_mfc_reqbufs d.reqbufsIoctl 2).2 fuel 0).1
          with _ | b
        · simp only [hq] at hk ⊢
          have hin : Ev.mapFail k ∈
              (queue_buffers_loop d (v4l2_mfc_reqbufs d.reqbufsIoctl 2).2 fuel 0).2 := by
            simpa using hk
          have := queue_loop_mapfail_false d _ fuel 0 k hin
          rw [this] at hq
          exact Option.noConfusion hq
        · cases b with
          | false => simp only [hq]
          | true =>
            exfalso
            simp only [hq] at hk
            have hin : Ev.mapFail k ∈
                (queue_buffers_loop d (v4l2_mfc_reqbufs d.reqbufsIoctl 2).2 fuel 0).2 := by
              by_cases hstr : d.streamonRet ≠ 0
              · rw [if_pos hstr] at hk
                simpa using hk
              · rw [if_neg hstr] at hk
                simpa using hk
            have hres := queue_loop_mapfail_false d _ fuel 0 k hin
            rw [hres] at hq
            simp at hq

/-- C4: code bug. In the failing environment (two granted OUTPUT buffers,
each reporting one real plane and one absent plane, every ioctl and mmap
succeeding), initialization succeeds with the trace
sfmt, reqbufs, querybuf 0, mapped 0, qbuf 1, streamon: the enqueue is
issued for buffer index 1 — whose planes were never mapped — because the
inner per-plane loop of queue_buffers clobbers the outer index `i`
(leaving it at numplanes = 1), the header buffer 0 is never enqueued,
and OUTPUT stream-on is still issued afterwards. This contradicts both
the spec's ordering guarantee and the usage summary in main.c's own
comment (MMAP all buffers, QBUF the first buffer, then STREAM_ON). -/
theorem c4_init_order_violation :
    (mfc_ctxt_init dev_two_buffers 10).1 = some true ∧
    (mfc_ctxt_init dev_two_buffers 10).2.1 =
      [Ev.sfmt, Ev.reqbufs, Ev.querybuf 0, Ev.mapped 0, Ev.qbuf 1, Ev.streamon] ∧
    Ev.qbuf 1 ∈ (mfc_ctxt_init dev_two_buffers 10).2.1 ∧
    Ev.mapped 1 ∉ (mfc_ctxt_init dev_two_buffers 10).2.1 ∧
    (dev_two_buffers.planeEnv 1).any (fun p => p.length ≠ 0) = true ∧
    Ev.streamon ∈ (mfc_ctxt_init dev_two_buffers 10).2.1 ∧
    Ev.qbuf 0 ∉ (mfc_ctxt_init dev_two_buffers 10).2.1 := by
  decide

/-- C5: plane mapping fails atomically and the failure propagates. If a
buffer has a failing plane (first one at index j), `map_buffer` reports
failure and maps no plane from j onwards; and whenever a mapping failure
occurs during initialization (a mapFail event is in the trace), the
session initialization returns failure — a partially mapped pool is
never reported as success. -/
theorem c5_map_failure_atomic (ps : List PlaneEnv) (j : Nat) (d : InitDev)
    (fuel k : Nat)
    (hps : firstFail ps = some j)
    (hm : Ev.mapFail k ∈ (mfc_ctxt_init d fuel).2.1) :
    (map_buffer ps).ok = false ∧
    (∀ i, j ≤ i → (map_buffer ps).mapped.getD i none = none) ∧
    (mfc_ctxt_init d fuel).1 = some false := by
  have h1 := map_buffer_fail ps j hps
  exact ⟨h1.1, h1.2, mfc_init_mapfail_false d fuel k hm⟩

/-- C5 witness: a buffer whose first plane is real but unmappable, inside
an otherwise healthy initialization environment. -/
theorem c5_witness :
    (map_buffer (dev_mmap_fails.planeEnv 0)).ok = false ∧
    (map_buffer (dev_mmap_fails.planeEnv 0)).mapped.getD 0 none = none ∧
    (mfc_ctxt_init dev_mmap_fails 10).1 = some false := by
  have h := c5_map_failure_atomic (dev_mmap_fails.planeEnv 0) 0 dev_mmap_fails
    10 0 (by decide) (by decide)
  exact ⟨h.1, h.2.1 0 (Nat.le_refl 0), h.2.2⟩

/-- C6: on a successful mapping pass (in both the main.c and the part_003
variant), a plane is mapped exactly when its reported length is non-zero,
and every established mapping is shared, read-write, zero-filled, at the
device-reported offset and of the device-reported length. -/
theorem c6_zero_length_planes (ps : List PlaneEnv)
    (h : (map_buffer ps).ok = true) :
    (∀ j, ((map_buffer ps).mapped.getD j none).isSome = true ↔
      (j < ps.length ∧ (ps.getD j default).length ≠ 0)) ∧
    (∀ j m, (map_buffer ps).mapped.getD j none = some m →
      m.offset = (ps.getD j default).mem_offset ∧
      m.len = (ps.getD j default).length ∧
      m.shared = true ∧ m.readWrite = true ∧ m.zeroFilled = true) ∧
    (∀ j, (((map_planes ps).2).getD j none).isSome = true ↔
      (j < ps.length ∧ (ps.getD j default).length ≠ 0)) ∧
    (∀ j m, ((map_planes ps).2).getD j none = some m →
      m.offset = (ps.getD j default).mem_offset ∧
      m.len = (ps.getD j default).length ∧
      m.shared = true ∧ m.readWrite = true ∧ m.zeroFilled = true) := by
  have hmp := map_planes_eq_map_buffer ps
  refine ⟨map_buffer_mapped_iff ps h, map_buffer_mapping_fields ps, ?_, ?_⟩
  · rw [hmp]
    exact map_buffer_mapped_iff ps h
  · rw [hmp]
    exact map_buffer_mapping_fields ps

/-- C6 witness: the two-plane geometry (512000, 0): the real plane is
mapped shared/read-write/zero-filled at offset 4096, the zero-length
plane is skipped and has no mapping. -/
theorem c6_witness :
    ((map_buffer (dev_two_buffers.planeEnv 0)).mapped.getD 0 none).isSome = true ∧
    ((map_buffer (dev_two_buffers.planeEnv 0)).mapped.getD 1 none).isSome = false ∧
    (∀ m, (map_buffer (dev_two_buffers.planeEnv 0)).mapped.getD 0 none = some m →
      m.offset = 4096 ∧ m.len = 512000 ∧
      m.shared = true ∧ m.readWrite = true ∧ m.zeroFilled = true) := by
  have h := c6_zero_length_planes (dev_two_buffers.planeEnv 0) (by decide)
  refine ⟨(h.1 0).mpr (by decide), ?_, ?_⟩
  · cases hs : ((map_buffer (dev_two_buffers.planeEnv 0)).mapped.getD 1 none).isSome with
    | false => rfl
    | true => exact absurd ((h.1 1).mp hs).2 (by decide)
  · intro m hm
    have := h.2.1 0 m hm
    simpa using this

/-- C7: teardown is idempotent in both variants. Running either
close_device twice ends in the same state as running it once (handler
-1); the device handle (a non-negative descriptor) is closed exactly
once across the two runs; and the second run issues no close on any
non-negative descriptor — the part_003 variant issues none at all, the
main.c variant only re-closes the sentinel -1, which denotes no open
device. -/
theorem c7_teardown_idempotent (h : Int) (hge : 0 ≤ h) :
    (close_twice close_device_main h).1 = (close_device_main h).1 ∧
    (close_twice close_device_guarded h).1 = (close_device_guarded h).1 ∧
    (close_twice close_device_main h).2.count h = 1 ∧
    (close_twice close_device_guarded h).2.count h = 1 ∧
    (close_device_guarded (close_device_guarded h).1).2 = [] ∧
    (∀ fd ∈ (close_device_main (close_device_main h).1).2, fd < 0) := by
  have hne : h ≠ -1 := by omega
  have hg : close_device_guarded h = (-1, [h]) := by
    rw [close_device_guarded, if_pos hne]
  have hg1 : close_device_guarded (-1) = (-1, []) := by
    rw [close_device_guarded, if_neg (by omega)]
  refine ⟨rfl, ?_, ?_, ?_, ?_, ?_⟩
  · show (close_device_guarded (close_device_guarded h).1).1 = (close_device_guarded h).1
    rw [hg, hg1]
  · show ([h] ++ [-1]).count h = 1
    simp [List.count_cons, hne]
  · show ((close_device_guarded h).2 ++ (close_device_guarded (close_device_guarded h).1).2).count h = 1
    rw [hg, hg1]
    simp [List.count_cons]
  · rw [hg, hg1]
  · intro fd hfd
    have : fd = -1 := by simpa [close_device_main] using hfd
    omega

/-- C7 witness: descriptor 5. -/
theorem c7_witness :
    (close_twice close_device_main 5).1 = (close_device_main 5).1 ∧
    (close_twice close_device_guarded 5).1 = (close_device_guarded 5).1 ∧
    (close_twice close_device_main 5).2.count 5 = 1 ∧
    (close_twice close_device_guarded 5).2.count 5 = 1 ∧
    (close_device_guarded (close_device_guarded 5).1).2 = [] ∧
    (∀ fd ∈ (close_device_main (close_device_main 5).1).2, fd < 0) :=
  c7_teardown_idempotent 5 (by decide)

/-- Once a handler has been found (not -1), the rest of the scan opens
nothing and closes nothing. -/
theorem find_loop_found (dn : String) (entries : List DirEntry) (h : Int)
    (hne : ¬ h = -1) :
    find_device_loop dn entries h = (h, []) := by
  induction entries with
  | nil => rfl
  | cons e es ih =>
    rw [find_device_loop]
    split
    · exact ih
    · cases hdrv : e.driver with
      | none => simp only [hdrv]; exact ih
      | some drv =>
        simp only [hdrv]
        rw [if_neg]
        · exact ih
        · rintro ⟨_, hh, _⟩
          exact hne hh

/-- Starting from the unset handler, the readdir loop computes exactly
the reference scan. -/
theorem find_loop_eq_spec_scan (dn : String) (entries : List DirEntry)
    (hwf : ∀ e ∈ entries, openFd_nonneg e = true) :
    find_device_loop dn entries (-1) = spec_scan dn entries := by
  induction entries with
  | nil => rfl
  | cons e es ih =>
    have hwe := hwf e (List.mem_cons_self e es)
    have hwes : ∀ x ∈ es, openFd_nonneg x = true :=
      fun x hx => hwf x (List.mem_cons_of_mem _ hx)
    rw [find_device_loop, spec_scan]
    by_cases hpre : starts_with "video" e.name = false
    · rw [if_pos hpre, if_neg]
      · exact ih hwes
      · simp [entry_matches, hpre]
    · rw [if_neg hpre]
      have hpre' : starts_with "video" e.name = true := by
        revert hpre
        cases starts_with "video" e.name <;> simp
      cases hdrv : e.driver with
      | none =>
        simp only [hdrv]
        rw [if_neg]
        · exact ih hwes
        · simp [entry_matches, hdrv]
      | some drv =>
        simp only [hdrv]
        by_cases hg : e.device.isSome = true ∧ substr dn drv = true
        · have hem : entry_matches dn e = true := by
            simp [entry_matches, hdrv, hg.1, hg.2, hpre']
          rw [if_pos (And.intro hg.1 (And.intro (by trivial) hg.2)), if_pos hem]
          unfold open_and_query
          cases hfd : e.openFd with
          | none =>
            dsimp only
            simp [ih hwes]
          | some fd =>
            dsimp only
            by_cases hqc : v4l2_mfc_querycap e.qcRet e.qcCaps = 0
            · rw [if_pos hqc, if_pos hqc]
              have hfdne : ¬ (fd = -1) := by
                have hw := hwe
                rw [openFd_nonneg] at hw
                rw [hfd] at hw
                intro hcon
                subst hcon
                simp at hw
              dsimp only
              rw [find_loop_found dn es fd hfdne]
              rfl
            · rw [if_neg hqc, if_neg hqc]
              dsimp only
              rw [ih hwes]
              rfl
        · have hem : entry_matches dn e = false := by
            rcases Decidable.not_and_iff_or_not.mp hg with hd | hs
            · simp [entry_matches, hdrv, Bool.eq_false_iff.mpr hd]
            · simp [entry_matches, hdrv, Bool.eq_false_iff.mpr hs]
          rw [if_neg, if_neg]
          · exact ih hwes
          · simp [hem]
          · rintro ⟨hd, _, hs⟩
            exact hg ⟨hd, hs⟩

/-- The reference scan returns -1 or the descriptor of a matching entry
that passed verification. -/
theorem spec_scan_result (dn : String) (entries : List DirEntry) :
    (spec_scan dn entries).1 = -1 ∨
      ∃ e ∈ entries, entry_matches dn e = true ∧
        e.openFd = some (spec_scan dn entries).1 ∧
        v4l2_mfc_querycap e.qcRet e.qcCaps = 0 := by
  induction entries with
  | nil => left; rfl
  | cons e es ih =>
    rw [spec_scan]
    by_cases hem : entry_matches dn e = true
    · rw [if_pos hem]
      cases hfd : e.openFd with
      | none =>
        rcases ih with h | ⟨x, hx, hm⟩
        · left; exact h
        · right; exact ⟨x, List.mem_cons_of_mem _ hx, hm⟩
      | some fd =>
        dsimp only
        by_cases hqc : v4l2_mfc_querycap e.qcRet e.qcCaps = 0
        · rw [if_pos hqc]
          right
          exact ⟨e, List.mem_cons_self e es, hem, hfd, hqc⟩
        · rw [if_neg hqc]
          rcases ih with h | ⟨x, hx, hm⟩
          · left; exact h
          · right; exact ⟨x, List.mem_cons_of_mem _ hx, hm⟩
    · rw [if_neg hem]
      rcases ih with h | ⟨x, hx, hm⟩
      · left; exact h
      · right; exact ⟨x, List.mem_cons_of_mem _ hx, hm⟩

/-- C10: device discovery returns -1 when the sysfs directory cannot be
opened; otherwise it computes exactly the reference scan — handler and
closed-descriptor list — which returns the descriptor of the first
directory entry whose name starts with "video", whose driver contains
the requested substring, whose device node opens, and whose capability
check succeeds (closing the descriptors of matching entries that failed
verification), or -1 when no entry qualifies. -/
theorem c10_find_device (dn : String) (entries : List DirEntry)
    (hwf : ∀ e ∈ entries, openFd_nonneg e = true) :
    v4l2_find_device dn false entries = (-1, []) ∧
    v4l2_find_device dn true entries = spec_scan dn entries ∧
    ((v4l2_find_device dn true entries).1 = -1 ∨
      ∃ e ∈ entries, entry_matches dn e = true ∧
        e.openFd = some (v4l2_find_device dn true entries).1 ∧
        v4l2_mfc_querycap e.qcRet e.qcCaps = 0) := by
  have h2 : v4l2_find_device dn true entries = spec_scan dn entries := by
    unfold v4l2_find_device
    rw [if_pos rfl]
    exact find_loop_eq_spec_scan dn entries hwf
  refine ⟨rfl, h2, ?_⟩
  rw [h2]
  exact spec_scan_result dn entries

/-- C10 witness: on the five-entry directory the scan skips the
non-video and mismatching entries, opens and closes fd 5 (verification
failure), returns the first qualifying descriptor 6, and never opens the
later qualifying entry. -/
theorem c10_witness :
    v4l2_find_device "s5p-mfc-dec" true c10_entries =
      spec_scan "s5p-mfc-dec" c10_entries ∧
    v4l2_find_device "s5p-mfc-dec" true c10_entries = (6, [5]) := by
  have h := c10_find_device "s5p-mfc-dec" c10_entries (by decide)
  exact ⟨h.2.1, by decide⟩
